import Mathlib

/-!
Shallow embedding of the character-controller core of `src/main.js`
(a small three.js side-scroller: gravity and jump physics, AABB collision
against a ground plane and a list of box obstacles, and an idle/run/jump
animation state machine driven by input).

Modelling conventions:
* JavaScript numbers are modelled as exact rationals (`ℚ`); the numeric
  literals of the source (`-9.8`, `5`, `Math.PI / 2`) become the
  corresponding rational constants.  `mathPI` is the IEEE-754 double
  stored in `Math.PI`, written as an exact rational.
* `THREE.Box3` becomes a pair of corner vectors; `Box3.intersectsBox` and
  `Box3.translate` are translated from the three.js sources.
* `new THREE.Box3().setFromObject(character)` is modelled as a fixed
  local-space box (`World.charLocal`) translated by the current character
  position: the world box follows the character rigidly.
* The mutable module globals (`character`, `mixer`, `velocity`,
  `isJumping`, `keysPressed`, the three clip actions, `currentAction`)
  become fields of an explicit `GameState`; a clip action that has not
  finished loading is `none`, exactly like the `undefined` binding in the
  source.  Playback (`action.play()` / `action.stop()`) is modelled by a
  playing flag per clip.
* Functions that can throw a `TypeError` in the source (reading a property
  of `undefined`, or calling `play()` on `undefined`) return
  `Option GameState`, with `none` standing for the thrown error.
-/

namespace AcgWuXiao

/-- A 3D vector with rational coordinates (models `THREE.Vector3`). -/
structure Vec3 where
  x : ℚ
  y : ℚ
  z : ℚ
deriving DecidableEq

/-- An axis-aligned box (models `THREE.Box3`). -/
structure Box3 where
  min : Vec3
  max : Vec3
deriving DecidableEq

/-- `THREE.Box3.intersectsBox`: the boxes intersect unless they are
separated on the X, Y or Z axis (a full three-axis test, using the
six-disjunct formula of the three.js source). -/
def intersectsBox (a b : Box3) : Bool :=
  !(decide (b.max.x < a.min.x) || decide (b.min.x > a.max.x) ||
    decide (b.max.y < a.min.y) || decide (b.min.y > a.max.y) ||
    decide (b.max.z < a.min.z) || decide (b.min.z > a.max.z))

/-- `THREE.Box3.translate`: shift both corners by an offset vector. -/
def translateBox (b : Box3) (v : Vec3) : Box3 :=
  { min := ⟨b.min.x + v.x, b.min.y + v.y, b.min.z + v.z⟩,
    max := ⟨b.max.x + v.x, b.max.y + v.y, b.max.z + v.z⟩ }

/-- `const gravity = -9.8` (src/main.js line 11). -/
def gravity : ℚ := -9.8

/-- `const jumpSpeed = 5` (src/main.js line 11). -/
def jumpSpeed : ℚ := 5

/-- The IEEE-754 double stored in `Math.PI`, as an exact rational. -/
def mathPI : ℚ := 884279719003555 / 281474976710656

/-- The three animation clips of the game. -/
inductive ActId
  | idle
  | run
  | jump
deriving DecidableEq

/-- The pressed/released flags the source reads from `keysPressed`
(only the three arrow keys are ever consulted). -/
structure KeysPressed where
  up : Bool
  left : Bool
  right : Bool
deriving DecidableEq

/-- The `event.key` values the key handlers distinguish; every other key
is `otherKey`. -/
inductive JSKey
  | arrowUp
  | arrowLeft
  | arrowRight
  | otherKey
deriving DecidableEq

/-- The character transform the controller mutates: position and the Y
rotation that encodes facing. -/
structure Character where
  position : Vec3
  rotationY : ℚ
deriving DecidableEq

/-- The mutable module state of src/main.js that the controller core
reads and writes.  `character = none` and `hasMixer = false` model the
time before the asynchronous model load completes; `idleLoaded` etc.
record which clip assets have arrived; `playingIdle` etc. model which
clips the mixer currently plays. -/
structure GameState where
  character : Option Character
  hasMixer : Bool
  velocity : ℚ
  isJumping : Bool
  keysPressed : KeysPressed
  idleLoaded : Bool
  runLoaded : Bool
  jumpLoaded : Bool
  currentAction : Option ActId
  playingIdle : Bool
  playingRun : Bool
  playingJump : Bool
deriving DecidableEq

/-- The static scene data: the character local-space bounding box, the
obstacle boxes in insertion order, and the ground box. -/
structure World where
  charLocal : Box3
  obstacles : List Box3
  groundBox : Box3

/-- The value of the module variable `idleAction` / `runAction` /
`jumpAction`: the clip when its load callback has run, `undefined`
(`none`) before that. -/
def actionRef (s : GameState) : ActId → Option ActId
  | .idle => if s.idleLoaded then some .idle else none
  | .run => if s.runLoaded then some .run else none
  | .jump => if s.jumpLoaded then some .jump else none

/-- Set the playing flag of one clip (models `action.play()` /
`action.stop()`). -/
def setPlaying (s : GameState) (a : ActId) (b : Bool) : GameState :=
  match a with
  | .idle => { s with playingIdle := b }
  | .run => { s with playingRun := b }
  | .jump => { s with playingJump := b }

/-- `setAction` (src/main.js lines 177-183).  The argument is the value
of an action variable, possibly `undefined` (`none`).  When the request
differs from `currentAction`, the source stops the current action (if
any) and then calls `action.play()`: if the requested action is
`undefined` this throws a `TypeError`, modelled by `none`. -/
def setAction (s : GameState) (action : Option ActId) : Option GameState :=
  if s.currentAction ≠ action then
    let s1 := match s.currentAction with
      | some c => setPlaying s c false
      | none => s
    match action with
    | some a => some { setPlaying s1 a true with currentAction := some a }
    | none => none
  else
    some s

/-- `switchAnimation` (src/main.js lines 166-174): when the character and
the mixer exist and the character is not jumping, request the run clip if
a horizontal key is held, else the idle clip. -/
def switchAnimation (s : GameState) : Option GameState :=
  if s.character.isSome && s.hasMixer && !s.isJumping then
    if s.keysPressed.left || s.keysPressed.right then
      setAction s (actionRef s .run)
    else
      setAction s (actionRef s .idle)
  else
    some s

/-- `initiateJump` (src/main.js lines 186-192): set the jumping flag,
load the launch speed into `velocity`, and request the jump clip when it
is not already current. -/
def initiateJump (s : GameState) : Option GameState :=
  let s := { s with isJumping := true, velocity := jumpSpeed }
  if s.currentAction ≠ actionRef s .jump then
    setAction s (actionRef s .jump)
  else
    some s

/-- `updateCharacterDirection` (src/main.js lines 155-163): holding left
faces the character left (rotation -π/2); otherwise holding right faces
it right (rotation π/2). -/
def updateCharacterDirection (s : GameState) : GameState :=
  match s.character with
  | none => s
  | some c =>
    if s.keysPressed.left then
      { s with character := some { c with rotationY := -(mathPI / 2) } }
    else if s.keysPressed.right then
      { s with character := some { c with rotationY := mathPI / 2 } }
    else
      s

/-- `keysPressed[event.key] = b` for the keys the source later reads. -/
def setKey (k : KeysPressed) (key : JSKey) (b : Bool) : KeysPressed :=
  match key with
  | .arrowUp => { k with up := b }
  | .arrowLeft => { k with left := b }
  | .arrowRight => { k with right := b }
  | .otherKey => k

/-- `onKeyDown` (src/main.js lines 129-142): record the key as pressed;
on ArrowUp start a jump unless already jumping; on ArrowLeft/ArrowRight
re-evaluate the animation and the facing. -/
def onKeyDown (key : JSKey) (s : GameState) : Option GameState := do
  let s := { s with keysPressed := setKey s.keysPressed key true }
  let s ← if key = .arrowUp && !s.isJumping then initiateJump s else pure s
  if key = .arrowLeft || key = .arrowRight then
    let s ← switchAnimation s
    pure (updateCharacterDirection s)
  else
    pure s

/-- The per-obstacle support test of `applyGravity` (src/main.js lines
204-208): the boxes intersect (full three-axis `intersectsBox`), the
bottom edge projected one tick backward along the velocity is at or
above the obstacle top, and the current bottom edge is at or below the
obstacle top. -/
def obstacleSupports (characterBox : Box3) (velocity delta : ℚ)
    (obstacleBox : Box3) : Bool :=
  intersectsBox characterBox obstacleBox &&
  decide (characterBox.min.y - velocity * delta ≥ obstacleBox.max.y) &&
  decide (characterBox.min.y ≤ obstacleBox.max.y)

/-- One iteration of the `obstacles.forEach` loop of `applyGravity`: a
matching obstacle sets the supported flag and overwrites the snap
height; a non-matching obstacle leaves the accumulator unchanged. -/
def supportStep (characterBox : Box3) (velocity delta : ℚ)
    (acc : Bool × ℚ) (obstacleBox : Box3) : Bool × ℚ :=
  if obstacleSupports characterBox velocity delta obstacleBox then
    (true, obstacleBox.max.y)
  else
    acc

/-- The whole `obstacles.forEach` loop of `applyGravity` (src/main.js
lines 202-212), threading the supported flag and the current
`character.position.y`. -/
def supportScan (characterBox : Box3) (velocity delta : ℚ)
    (obstacles : List Box3) (y0 : ℚ) : Bool × ℚ :=
  obstacles.foldl (supportStep characterBox velocity delta) (false, y0)

/-- `applyGravity` (src/main.js lines 195-227).  Returns unchanged when
the character has not loaded.  Otherwise: run the obstacle loop, then
the unconditional ground check (which reads the possibly already
snapped `character.position.y`), then either integrate gravity
(velocity first, then position — the source order) or land: reset the
jump state and re-evaluate the animation via `switchAnimation`. -/
def applyGravity (W : World) (delta : ℚ) (s : GameState) : Option GameState :=
  match s.character with
  | none => some s
  | some c =>
    let characterBox := translateBox W.charLocal c.position
    let scan := supportScan characterBox s.velocity delta W.obstacles c.position.y
    let grounded := decide (characterBox.min.y ≤ W.groundBox.max.y) &&
                    decide (scan.2 ≤ 0)
    let isSupported := scan.1 || grounded
    let y1 := if grounded then 0 else scan.2
    if !isSupported then
      let v := s.velocity + gravity * delta
      some { s with velocity := v,
                    character := some { c with position := { c.position with y := y1 + v * delta } } }
    else
      switchAnimation { s with isJumping := false, velocity := 0,
                               character := some { c with position := { c.position with y := y1 } } }

/-- `checkHorizontalCollision` (src/main.js lines 229-246): translate the
character box by `nextX - position.x` along X and report whether it
intersects any obstacle box (the ground is never consulted).  Pure
query. -/
def checkHorizontalCollision (W : World) (s : GameState) (nextX : ℚ) : Bool :=
  match s.character with
  | none => false
  | some c =>
    let characterBox := translateBox W.charLocal c.position
    let nextCharacterBox := translateBox characterBox ⟨nextX - c.position.x, 0, 0⟩
    W.obstacles.any (fun obstacleBox => intersectsBox nextCharacterBox obstacleBox)

/-- One tick of `animate` (src/main.js lines 249-270), without the
render and mixer-update calls, which are external.  Note that the source
evaluates `character.position.x - 5 * delta` before the guarded
`checkHorizontalCollision` call: when a horizontal key is held while
`character` is still `undefined`, that property read throws, modelled by
`none`. -/
def animateStep (W : World) (delta : ℚ) (s : GameState) : Option GameState := do
  let s ← applyGravity W delta s
  let s ←
    if s.keysPressed.left then
      match s.character with
      | none => none
      | some c =>
        if !checkHorizontalCollision W s (c.position.x - 5 * delta) then
          pure { s with character := some { c with position := { c.position with x := c.position.x - 5 * delta } } }
        else
          pure s
    else
      pure s
  if s.keysPressed.right then
    match s.character with
    | none => none
    | some c =>
      if !checkHorizontalCollision W s (c.position.x + 5 * delta) then
        pure { s with character := some { c with position := { c.position with x := c.position.x + 5 * delta } } }
      else
        pure s
  else
    pure s

/-- The character transform installed by the `loadModel` callback
(src/main.js lines 77-82): position (0, 0, 0), facing right (π/2). -/
def initialCharacter : Character :=
  { position := ⟨0, 0, 0⟩, rotationY := mathPI / 2 }

/-- Modelled from the spec: condition (a) of the spec findSupport
contract read literally as an X-axis-only box intersection test
(the spec says the boxes must intersect "in X").  Written from the
spec words, for comparison with the source `intersectsBox`. -/
def intersectsBoxX_spec (a b : Box3) : Bool :=
  !(decide (b.max.x < a.min.x) || decide (b.min.x > a.max.x))

/-- Modelled from the spec: the per-obstacle support condition with the
X-only reading of condition (a), conditions (b) and (c) as in the
source. -/
def obstacleSupports_spec (characterBox : Box3) (velocity delta : ℚ)
    (obstacleBox : Box3) : Bool :=
  intersectsBoxX_spec characterBox obstacleBox &&
  decide (characterBox.min.y - velocity * delta ≥ obstacleBox.max.y) &&
  decide (characterBox.min.y ≤ obstacleBox.max.y)

/-- The Z coordinate of the loaded character, 0 when no character is
loaded. -/
def charZ (s : GameState) : ℚ :=
  (s.character.map fun c => c.position.z).getD 0

/-- Exactly the current clip reports as playing. -/
def exclusivePlaying (s : GameState) : Prop :=
  (s.playingIdle = true ↔ s.currentAction = some ActId.idle) ∧
  (s.playingRun = true ↔ s.currentAction = some ActId.run) ∧
  (s.playingJump = true ↔ s.currentAction = some ActId.jump)

instance (s : GameState) : Decidable (exclusivePlaying s) := by
  unfold exclusivePlaying
  infer_instance

/-! ## Concrete scenarios used for counterexamples and witnesses -/

/-- A character box entirely below an obstacle yet overlapping it in X:
min (0,-5,0), max (1,-4,1). -/
def lowCharBox : Box3 := ⟨⟨0, -5, 0⟩, ⟨1, -4, 1⟩⟩

/-- A unit-top obstacle box: min (0,0,0), max (1,1,1). -/
def unitObstacleBox : Box3 := ⟨⟨0, 0, 0⟩, ⟨1, 1, 1⟩⟩

/-- Character local box: 1 x 2 x 1 with the origin on the bottom face. -/
def demoLocalBox : Box3 := ⟨⟨0, 0, 0⟩, ⟨1, 2, 1⟩⟩

/-- The ground plane box: top at y = 0. -/
def demoGroundBox : Box3 := ⟨⟨-50, -1/10, -5⟩, ⟨50, 0, 5⟩⟩

/-- Obstacle with top at y = 1/2. -/
def obTopHalf : Box3 := ⟨⟨0, -1/2, 0⟩, ⟨1, 1/2, 1⟩⟩

/-- Obstacle with top at y = 2/5. -/
def obTopTwoFifths : Box3 := ⟨⟨0, -3/5, 0⟩, ⟨1, 2/5, 1⟩⟩

/-- World with the two overlapping obstacles of different tops, in list
order: top 1/2 first, top 2/5 second. -/
def twoObstacleWorld : World :=
  { charLocal := demoLocalBox, obstacles := [obTopHalf, obTopTwoFifths],
    groundBox := demoGroundBox }

/-- World with no obstacles. -/
def emptyWorld : World :=
  { charLocal := demoLocalBox, obstacles := [], groundBox := demoGroundBox }

/-- A fully loaded animation set with idle current and playing, all keys
released, used as the base of the concrete states. -/
def baseState : GameState :=
  { character := some initialCharacter, hasMixer := true, velocity := 0,
    isJumping := false,
    keysPressed := { up := false, left := false, right := false },
    idleLoaded := true, runLoaded := true, jumpLoaded := true,
    currentAction := some .idle,
    playingIdle := true, playingRun := false, playingJump := false }

/-- Falling character slightly above the two-obstacle pair: position
(0, 3/10, 0), downward velocity -1. -/
def fallingOnPairState : GameState :=
  { baseState with
      character := some { position := ⟨0, 3/10, 0⟩, rotationY := mathPI / 2 },
      velocity := -1 }

/-- The airborne scenario of the spec: position (0, 1, 0), upward
velocity 2. -/
def airborneState : GameState :=
  { baseState with
      character := some { position := ⟨0, 1, 0⟩, rotationY := mathPI / 2 },
      velocity := 2 }

/-! ## Helper lemmas -/

theorem setPlaying_character (s : GameState) (a : ActId) (b : Bool) :
    (setPlaying s a b).character = s.character := by cases a <;> rfl

theorem setPlaying_hasMixer (s : GameState) (a : ActId) (b : Bool) :
    (setPlaying s a b).hasMixer = s.hasMixer := by cases a <;> rfl

theorem setPlaying_velocity (s : GameState) (a : ActId) (b : Bool) :
    (setPlaying s a b).velocity = s.velocity := by cases a <;> rfl

theorem setPlaying_isJumping (s : GameState) (a : ActId) (b : Bool) :
    (setPlaying s a b).isJumping = s.isJumping := by cases a <;> rfl

theorem setPlaying_keysPressed (s : GameState) (a : ActId) (b : Bool) :
    (setPlaying s a b).keysPressed = s.keysPressed := by cases a <;> rfl

theorem setPlaying_idleLoaded (s : GameState) (a : ActId) (b : Bool) :
    (setPlaying s a b).idleLoaded = s.idleLoaded := by cases a <;> rfl

theorem setPlaying_runLoaded (s : GameState) (a : ActId) (b : Bool) :
    (setPlaying s a b).runLoaded = s.runLoaded := by cases a <;> rfl

theorem setPlaying_jumpLoaded (s : GameState) (a : ActId) (b : Bool) :
    (setPlaying s a b).jumpLoaded = s.jumpLoaded := by cases a <;> rfl

theorem setPlaying_currentAction (s : GameState) (a : ActId) (b : Bool) :
    (setPlaying s a b).currentAction = s.currentAction := by cases a <;> rfl

/-- `setAction` touches only the current-action pointer and the playing
flags: every other field of the state survives. -/
theorem setAction_fields (s : GameState) (a : Option ActId) (t : GameState)
    (h : setAction s a = some t) :
    t.character = s.character ∧ t.hasMixer = s.hasMixer ∧ t.velocity = s.velocity ∧
    t.isJumping = s.isJumping ∧ t.keysPressed = s.keysPressed ∧
    t.idleLoaded = s.idleLoaded ∧ t.runLoaded = s.runLoaded ∧
    t.jumpLoaded = s.jumpLoaded := by
  unfold setAction at h
  split at h
  · cases a with
    | none => exact nomatch h
    | some b =>
      simp only [Option.some.injEq] at h
      subst h
      cases hc : s.currentAction with
      | none =>
        simp [hc, setPlaying_character, setPlaying_hasMixer, setPlaying_velocity,
          setPlaying_isJumping, setPlaying_keysPressed, setPlaying_idleLoaded,
          setPlaying_runLoaded, setPlaying_jumpLoaded]
      | some c =>
        simp [hc, setPlaying_character, setPlaying_hasMixer, setPlaying_velocity,
          setPlaying_isJumping, setPlaying_keysPressed, setPlaying_idleLoaded,
          setPlaying_runLoaded, setPlaying_jumpLoaded]
  · simp only [Option.some.injEq] at h
    subst h
    exact ⟨rfl, rfl, rfl, rfl, rfl, rfl, rfl, rfl⟩

/-- `switchAnimation` only ever calls `setAction`: every field outside
the animation bookkeeping survives. -/
theorem switchAnimation_fields (s t : GameState)
    (h : switchAnimation s = some t) :
    t.character = s.character ∧ t.hasMixer = s.hasMixer ∧ t.velocity = s.velocity ∧
    t.isJumping = s.isJumping ∧ t.keysPressed = s.keysPressed ∧
    t.idleLoaded = s.idleLoaded ∧ t.runLoaded = s.runLoaded ∧
    t.jumpLoaded = s.jumpLoaded := by
  unfold switchAnimation at h
  split at h
  · split at h
    · exact setAction_fields _ _ _ h
    · exact setAction_fields _ _ _ h
  · simp only [Option.some.injEq] at h
    subst h
    exact ⟨rfl, rfl, rfl, rfl, rfl, rfl, rfl, rfl⟩

/-- Once the supported flag of the obstacle scan is set it never
clears. -/
theorem supportScan_stays_true (characterBox : Box3) (velocity delta : ℚ)
    (obstacles : List Box3) (acc : Bool × ℚ) (hacc : acc.1 = true) :
    (obstacles.foldl (supportStep characterBox velocity delta) acc).1 = true := by
  induction obstacles generalizing acc with
  | nil => exact hacc
  | cons ob obs ih =>
    simp only [List.foldl_cons]
    apply ih
    unfold supportStep
    split
    · rfl
    · exact hacc

/-- When no obstacle matches, the scan leaves the snap height at the
initial `position.y`. -/
theorem supportScan_of_false (characterBox : Box3) (velocity delta : ℚ)
    (obstacles : List Box3) (y0 : ℚ)
    (h : (supportScan characterBox velocity delta obstacles y0).1 = false) :
    supportScan characterBox velocity delta obstacles y0 = (false, y0) := by
  unfold supportScan at h ⊢
  induction obstacles with
  | nil => rfl
  | cons ob obs ih =>
    simp only [List.foldl_cons] at h ⊢
    by_cases hm : obstacleSupports characterBox velocity delta ob = true
    · exfalso
      rw [supportScan_stays_true characterBox velocity delta obs
        (supportStep characterBox velocity delta (false, y0) ob)
        (by unfold supportStep; rw [if_pos hm])] at h
      exact Bool.true_eq_false ▸ h
    · rw [show supportStep characterBox velocity delta (false, y0) ob = (false, y0) by
        unfold supportStep; rw [if_neg hm]] at h ⊢
      exact ih h

/-- The obstacle scan over a list ending in `ob`: a matching final
obstacle overwrites everything before it (the source of the
last-match-wins behaviour). -/
theorem supportScan_append (characterBox : Box3) (velocity delta : ℚ)
    (obstacles : List Box3) (ob : Box3) (y0 : ℚ) :
    supportScan characterBox velocity delta (obstacles ++ [ob]) y0 =
      if obstacleSupports characterBox velocity delta ob = true then (true, ob.max.y)
      else supportScan characterBox velocity delta obstacles y0 := by
  unfold supportScan
  rw [List.foldl_append]
  simp only [List.foldl_cons, List.foldl_nil]
  unfold supportStep
  split
  · rfl
  · rfl

/-- `applyGravity` preserves the input flags, the loaded flags, the X
and Z coordinates and the facing; when no character is loaded it is the
identity. -/
theorem applyGravity_fields (W : World) (delta : ℚ) (s t : GameState)
    (h : applyGravity W delta s = some t) :
    t.keysPressed = s.keysPressed ∧ t.hasMixer = s.hasMixer ∧
    t.idleLoaded = s.idleLoaded ∧ t.runLoaded = s.runLoaded ∧
    t.jumpLoaded = s.jumpLoaded ∧
    ((s.character = none ∧ t = s) ∨
     (∃ c c', s.character = some c ∧ t.character = some c' ∧
        c'.position.x = c.position.x ∧ c'.position.z = c.position.z ∧
        c'.rotationY = c.rotationY)) := by
  unfold applyGravity at h
  cases hc : s.character with
  | none =>
    rw [hc] at h
    simp only [Option.some.injEq] at h
    subst h
    exact ⟨rfl, rfl, rfl, rfl, rfl, Or.inl ⟨rfl, rfl⟩⟩
  | some c =>
    rw [hc] at h
    simp only [] at h
    split at h
    · simp only [Option.some.injEq] at h
      subst h
      exact ⟨rfl, rfl, rfl, rfl, rfl, Or.inr ⟨c, _, rfl, rfl, rfl, rfl, rfl⟩⟩
    · obtain ⟨h1, h2, _, _, h5, h6, h7, h8⟩ := switchAnimation_fields _ _ h
      refine ⟨h5, h2, h6, h7, h8, Or.inr ⟨c, _, rfl, h1.trans rfl, rfl, rfl, rfl⟩⟩

/-- A state that is mid-jump: jump clip current and playing. -/
def jumpingState : GameState :=
  { baseState with isJumping := true, velocity := jumpSpeed,
                   currentAction := some .jump,
                   playingIdle := false, playingJump := true }

/-- The base state with only the left arrow held. -/
def leftHeldState : GameState :=
  { baseState with keysPressed := { up := false, left := true, right := false } }

/-- The base state with both horizontal arrows held. -/
def bothKeysState : GameState :=
  { baseState with keysPressed := { up := false, left := true, right := true } }

/-! ## Claim theorems -/

/-- C1 counterexample: the source support test is NOT an X-axis-only
intersection in condition (a).  A character box that overlaps an
obstacle in X but lies entirely below it in Y satisfies the spec
X-only reading of (a) together with (b) and (c) (velocity -6, delta 1),
yet the source `intersectsBox` conjunct rejects it, so no support is
granted. -/
theorem C1_counterexample :
    obstacleSupports lowCharBox (-6) 1 unitObstacleBox = false ∧
    obstacleSupports_spec lowCharBox (-6) 1 unitObstacleBox = true := by
  constructor
  · norm_num [obstacleSupports, intersectsBox, lowCharBox, unitObstacleBox]
  · norm_num [obstacleSupports_spec, intersectsBoxX_spec, lowCharBox, unitObstacleBox]

/-- C1 (amended): the per-obstacle check of `applyGravity` grants
support exactly when (a) the character box intersects the obstacle box
on ALL THREE axes (the full `Box3.intersectsBox` test, not an X-only
test), (b) the bottom edge projected one tick backward along the
velocity is at or above the obstacle top, and (c) the current bottom
edge is at or below the obstacle top. -/
theorem C1_support_condition (characterBox obstacleBox : Box3) (velocity delta : ℚ) :
    obstacleSupports characterBox velocity delta obstacleBox = true ↔
      (intersectsBox characterBox obstacleBox = true ∧
       characterBox.min.y - velocity * delta ≥ obstacleBox.max.y ∧
       characterBox.min.y ≤ obstacleBox.max.y) := by
  simp [obstacleSupports, Bool.and_eq_true, decide_eq_true_eq, and_assoc]

/-- C3: pressing ArrowUp while the jumping flag is set only records the
key in the pressed map; the velocity, the jumping flag, the character
transform, the current action and the playing flags are all unchanged
and no error occurs. -/
theorem C3_jump_lockout (s : GameState) (h : s.isJumping = true) :
    onKeyDown .arrowUp s =
      some { s with keysPressed := { s.keysPressed with up := true } } := by
  unfold onKeyDown
  simp [h, setKey]

/-- Witness for C3 at a concrete mid-jump state. -/
theorem C3_jump_lockout_witness :
    onKeyDown .arrowUp jumpingState =
      some { jumpingState with
               keysPressed := { jumpingState.keysPressed with up := true } } :=
  C3_jump_lockout jumpingState rfl

/-- C6: one tick of `applyGravity` with no support found updates the
velocity first (velocity + gravity * delta) and then moves the Y
position by the UPDATED velocity times delta (semi-implicit Euler, the
source order of lines 220-221). -/
theorem C6_gravity_integration (W : World) (delta : ℚ) (s : GameState) (c : Character)
    (hc : s.character = some c)
    (hscan : (supportScan (translateBox W.charLocal c.position) s.velocity delta
                W.obstacles c.position.y).1 = false)
    (hng : ¬((translateBox W.charLocal c.position).min.y ≤ W.groundBox.max.y ∧
             (supportScan (translateBox W.charLocal c.position) s.velocity delta
                W.obstacles c.position.y).2 ≤ 0)) :
    applyGravity W delta s =
      some { s with velocity := s.velocity + gravity * delta,
                    character := some { c with position := { c.position with y :=
                      c.position.y + (s.velocity + gravity * delta) * delta } } } := by
  have hpair := supportScan_of_false (translateBox W.charLocal c.position) s.velocity delta
    W.obstacles c.position.y hscan
  rw [hpair] at hng
  unfold applyGravity
  rw [hc]
  simp only [hpair]
  rw [show (decide ((translateBox W.charLocal c.position).min.y ≤ W.groundBox.max.y) &&
        decide (((false, c.position.y) : Bool × ℚ).2 ≤ 0)) = false by
      rw [← Bool.decide_and]; exact decide_eq_false hng]
  rfl

/-- Witness for C6: the spec scenario.  Airborne at position.y = 1 with
velocity 2, ground top at 0, no obstacles, delta = 1: the velocity
becomes 2 + (-9.8) = -7.8 exactly and position.y becomes 1 + (-7.8) =
-6.8 exactly. -/
theorem C6_gravity_integration_witness :
    applyGravity emptyWorld 1 airborneState =
      some { airborneState with
               velocity := -7.8,
               character := some { position := ⟨0, -6.8, 0⟩, rotationY := mathPI / 2 } } := by
  have h := C6_gravity_integration emptyWorld 1 airborneState
    { position := ⟨0, 1, 0⟩, rotationY := mathPI / 2 } rfl rfl
    (by norm_num [translateBox, demoLocalBox, emptyWorld, demoGroundBox, supportScan,
          airborneState, baseState])
  rw [h]
  norm_num [airborneState, baseState, gravity]

/-- C10: in `updateCharacterDirection`, holding left sets the facing to
-π/2 regardless of the right key (so with both keys held left wins),
and the right key sets the facing to π/2 only when left is not held. -/
theorem C10_facing (s : GameState) (c : Character) (hc : s.character = some c) :
    (s.keysPressed.left = true →
       updateCharacterDirection s =
         { s with character := some { c with rotationY := -(mathPI / 2) } }) ∧
    (s.keysPressed.left = false → s.keysPressed.right = true →
       updateCharacterDirection s =
         { s with character := some { c with rotationY := mathPI / 2 } }) := by
  constructor
  · intro hl
    unfold updateCharacterDirection
    rw [hc]
    simp only [hl, if_true]
  · intro hl hr
    unfold updateCharacterDirection
    rw [hc]
    simp only [hl, hr, if_true, Bool.false_eq_true, if_false]

/-- Witness for C10: with both arrows held the facing becomes -π/2. -/
theorem C10_facing_witness :
    updateCharacterDirection bothKeysState =
      { bothKeysState with
          character := some { initialCharacter with rotationY := -(mathPI / 2) } } :=
  (C10_facing bothKeysState initialCharacter rfl).1 rfl

/-- C2 counterexample: two overlapping obstacles both satisfy the
support condition (tops 1/2 and 2/5, in that list order) for a falling
character, yet `applyGravity` snaps the character to the top of the
SECOND (last) matching obstacle, 2/5, not to the top of the first,
1/2: the `forEach` loop aggregates by overwriting, so the last match
wins, not the first. -/
theorem C2_counterexample :
    obstacleSupports (translateBox demoLocalBox ⟨0, 3/10, 0⟩) (-1) (1/4) obTopHalf = true ∧
    obstacleSupports (translateBox demoLocalBox ⟨0, 3/10, 0⟩) (-1) (1/4) obTopTwoFifths = true ∧
    obTopHalf.max.y = 1/2 ∧ obTopTwoFifths.max.y = 2/5 ∧
    twoObstacleWorld.obstacles = [obTopHalf, obTopTwoFifths] ∧
    fallingOnPairState.character = some { position := ⟨0, 3/10, 0⟩, rotationY := mathPI / 2 } ∧
    applyGravity twoObstacleWorld (1/4) fallingOnPairState =
      some { fallingOnPairState with
               isJumping := false, velocity := 0,
               character := some { position := ⟨0, 2/5, 0⟩, rotationY := mathPI / 2 } } := by
  refine ⟨?_, ?_, by norm_num [obTopHalf], by norm_num [obTopTwoFifths], rfl, rfl, ?_⟩
  · norm_num [obstacleSupports, intersectsBox, translateBox, demoLocalBox, obTopHalf]
  · norm_num [obstacleSupports, intersectsBox, translateBox, demoLocalBox, obTopTwoFifths]
  · norm_num [applyGravity, supportScan, supportStep, obstacleSupports, intersectsBox,
      translateBox, twoObstacleWorld, fallingOnPairState, baseState, demoLocalBox,
      demoGroundBox, obTopHalf, obTopTwoFifths, switchAnimation, setAction, actionRef,
      initialCharacter]

/-- C2 (amended): obstacles are evaluated in list order but every
matching obstacle overwrites the snap height, so the LAST matching
obstacle wins; the ground check is not a fallback: it runs
unconditionally after the obstacle loop, reads the possibly already
snapped Y value, and when its condition holds (pre-update bottom edge
at or below the ground top AND current Y at or below zero) it
overrides the snap height to 0 even if an obstacle already granted
support. -/
theorem C2_support_resolution (W : World) (delta : ℚ) (s : GameState) (c : Character)
    (hc : s.character = some c) :
    (∀ obstacles ob y0 cb v, supportScan cb v delta (obstacles ++ [ob]) y0 =
        if obstacleSupports cb v delta ob = true then (true, ob.max.y)
        else supportScan cb v delta obstacles y0) ∧
    ((translateBox W.charLocal c.position).min.y ≤ W.groundBox.max.y →
     (supportScan (translateBox W.charLocal c.position) s.velocity delta
        W.obstacles c.position.y).2 ≤ 0 →
       applyGravity W delta s =
         switchAnimation { s with
           isJumping := false,
           velocity := 0,
           character := some { c with position := { c.position with y := 0 } } }) ∧
    ((supportScan (translateBox W.charLocal c.position) s.velocity delta
        W.obstacles c.position.y).1 = true →
     ¬((translateBox W.charLocal c.position).min.y ≤ W.groundBox.max.y ∧
       (supportScan (translateBox W.charLocal c.position) s.velocity delta
          W.obstacles c.position.y).2 ≤ 0) →
       applyGravity W delta s =
         switchAnimation { s with
           isJumping := false,
           velocity := 0,
           character := some { c with position := { c.position with y :=
             (supportScan (translateBox W.charLocal c.position) s.velocity delta
                W.obstacles c.position.y).2 } } }) := by
  refine ⟨fun obstacles ob y0 cb v => supportScan_append cb v delta obstacles ob y0, ?_, ?_⟩
  · intro hg hy
    unfold applyGravity
    rw [hc]
    simp only [decide_eq_true hg, decide_eq_true hy, Bool.and_self, Bool.or_true,
      Bool.not_true, Bool.false_eq_true, if_false, if_true]
  · intro hsup hng
    unfold applyGravity
    rw [hc]
    simp only [hsup, Bool.true_or]
    rw [show (decide ((translateBox W.charLocal c.position).min.y ≤ W.groundBox.max.y) &&
          decide ((supportScan (translateBox W.charLocal c.position) s.velocity delta
            W.obstacles c.position.y).2 ≤ 0)) = false by
        rw [← Bool.decide_and]; exact decide_eq_false hng]
    simp only [Bool.true_or, Bool.not_true, Bool.false_eq_true, if_false]

/-- Witness for C2 (amended) at the two-obstacle scenario. -/
theorem C2_support_resolution_witness :
    (∀ obstacles ob y0 cb v, supportScan cb v (1/4) (obstacles ++ [ob]) y0 =
        if obstacleSupports cb v (1/4) ob = true then (true, ob.max.y)
        else supportScan cb v (1/4) obstacles y0) ∧
    applyGravity twoObstacleWorld (1/4) fallingOnPairState =
      switchAnimation { fallingOnPairState with
        isJumping := false,
        velocity := 0,
        character := some { position := ⟨0,
          (supportScan (translateBox twoObstacleWorld.charLocal ⟨0, 3/10, 0⟩) (-1) (1/4)
             twoObstacleWorld.obstacles (3/10)).2, 0⟩, rotationY := mathPI / 2 } } := by
  have h := C2_support_resolution twoObstacleWorld (1/4) fallingOnPairState
    { position := ⟨0, 3/10, 0⟩, rotationY := mathPI / 2 } rfl
  refine ⟨h.1, ?_⟩
  have h3 := h.2.2
    (by norm_num [supportScan, supportStep, obstacleSupports, intersectsBox, translateBox,
          twoObstacleWorld, fallingOnPairState, baseState, demoLocalBox, obTopHalf,
          obTopTwoFifths])
    (by norm_num [supportScan, supportStep, obstacleSupports, intersectsBox, translateBox,
          twoObstacleWorld, fallingOnPairState, baseState, demoLocalBox, demoGroundBox,
          obTopHalf, obTopTwoFifths])
  exact h3

/-- A state before any asset has loaded: no character, no mixer, no
clips, with the left arrow held. -/
def unloadedLeftState : GameState :=
  { character := none, hasMixer := false, velocity := 0, isJumping := false,
    keysPressed := { up := false, left := true, right := false },
    idleLoaded := false, runLoaded := false, jumpLoaded := false,
    currentAction := none,
    playingIdle := false, playingRun := false, playingJump := false }

/-- C4: the claim fails on the code.  With the character still
unloaded, the per-frame pass is safe only while no horizontal key is
held: `applyGravity` and `checkHorizontalCollision` do guard, but the
`animate` body computes `character.position.x - 5 * delta` BEFORE the
guarded call, so a frame with ArrowLeft held reads a property of
`undefined` and throws (modelled by `none`). -/
theorem C4_missing_character_crash :
    unloadedLeftState.character = none ∧
    unloadedLeftState.keysPressed.left = true ∧
    animateStep emptyWorld (1/60) unloadedLeftState = none ∧
    applyGravity emptyWorld (1/60) unloadedLeftState = some unloadedLeftState ∧
    animateStep emptyWorld (1/60)
        { unloadedLeftState with keysPressed := { up := false, left := false, right := false } } =
      some { unloadedLeftState with keysPressed := { up := false, left := false, right := false } } := by
  refine ⟨rfl, rfl, ?_, rfl, ?_⟩
  · norm_num [animateStep, applyGravity, unloadedLeftState, Option.bind]
  · norm_num [animateStep, applyGravity, unloadedLeftState, Option.bind]

/-- A state where the idle clip has loaded and is current and playing,
the run clip has NOT loaded yet, and the left arrow is held. -/
def runPendingState : GameState :=
  { baseState with runLoaded := false,
                   keysPressed := { up := false, left := true, right := false } }

/-- C5: the claim fails on the code.  When the requested clip has not
loaded (`runAction` is `undefined`) while a DIFFERENT clip is current,
`setAction` is not a no-op: it stops the current clip and then calls
`play()` on `undefined`, which throws (modelled by `none`); the
re-evaluation `switchAnimation` with the left arrow held therefore
crashes.  Only when the current action is also `undefined` does the
setter no-op as the spec describes. -/
theorem C5_unloaded_clip_crash :
    actionRef runPendingState .run = none ∧
    runPendingState.currentAction = some ActId.idle ∧
    switchAnimation runPendingState = none ∧
    setAction runPendingState none = none ∧
    setAction { runPendingState with currentAction := none, playingIdle := false } none =
      some { runPendingState with currentAction := none, playingIdle := false } := by
  refine ⟨rfl, rfl, ?_, ?_, ?_⟩
  · norm_num [switchAnimation, setAction, actionRef, runPendingState, baseState]
    exact fun h => nomatch h
  · norm_num [setAction, runPendingState, baseState]
    exact fun h => nomatch h
  · norm_num [setAction, runPendingState, baseState]

/-- C8: `setAction` with the already-current action is the identity (no
stop, no play); with a different defined action it stops the current
action (when there is one), starts the requested action and makes it
current; and it preserves the invariant that exactly the current clip
reports as playing. -/
theorem C8_setCurrent (s : GameState) (a : ActId) :
    setAction s s.currentAction = some s ∧
    (s.currentAction ≠ some a →
       setAction s (some a) =
         some { setPlaying (match s.currentAction with
                            | some b => setPlaying s b false
                            | none => s) a true with currentAction := some a }) ∧
    (exclusivePlaying s → ∀ t, setAction s (some a) = some t →
       exclusivePlaying t ∧ t.currentAction = some a) := by
  refine ⟨?_, ?_, ?_⟩
  · unfold setAction
    rw [if_neg (by simp)]
  · intro hne
    unfold setAction
    rw [if_pos hne]
  · intro hex t ht
    by_cases hcur : s.currentAction = some a
    · unfold setAction at ht
      rw [if_neg (by simp [hcur])] at ht
      simp only [Option.some.injEq] at ht
      subst ht
      exact ⟨hex, hcur⟩
    · unfold setAction at ht
      rw [if_pos hcur] at ht
      simp only [Option.some.injEq] at ht
      subst ht
      obtain ⟨h1, h2, h3⟩ := hex
      cases hc : s.currentAction with
      | none => cases a <;> simp_all [setPlaying, exclusivePlaying]
      | some b => cases b <;> cases a <;> simp_all [setPlaying, exclusivePlaying]

/-- Witness for C8 at the base state (idle current and playing),
requesting the run clip. -/
theorem C8_setCurrent_witness :
    setAction baseState baseState.currentAction = some baseState ∧
    setAction baseState (some ActId.run) =
      some { baseState with
             currentAction := some ActId.run,
             playingIdle := false,
             playingRun := true } ∧
    exclusivePlaying { baseState with
                       currentAction := some ActId.run,
                       playingIdle := false,
                       playingRun := true } := by
  have h := C8_setCurrent baseState ActId.run
  have h2 := h.2.1 (by decide)
  exact ⟨h.1, h2, (h.2.2 (by decide) _ h2).1⟩

/-- C7: in a tick with exactly one horizontal key held, the X update of
`animate` is exact: gravity leaves X unchanged; if the character box
translated by the proposed X delta intersects some obstacle box the
position is unchanged by the move (the tick result equals the
post-gravity state), otherwise X changes by exactly direction * 5 *
delta; the blocking query is a pure function that never reads the
ground box. -/
theorem C7_horizontal_exact (W : World) (delta : ℚ) (s sg t : GameState) (cg : Character)
    (hg : applyGravity W delta s = some sg)
    (hcg : sg.character = some cg)
    (hone : s.keysPressed.left ≠ s.keysPressed.right)
    (hstep : animateStep W delta s = some t) :
    (∀ c, s.character = some c → cg.position.x = c.position.x) ∧
    (∀ g nextX u, checkHorizontalCollision { W with groundBox := g } u nextX =
       checkHorizontalCollision W u nextX) ∧
    (s.keysPressed.left = true →
       (checkHorizontalCollision W sg (cg.position.x - 5 * delta) = true → t = sg) ∧
       (checkHorizontalCollision W sg (cg.position.x - 5 * delta) = false →
          t = { sg with character := some { cg with position :=
                  { cg.position with x := cg.position.x - 5 * delta } } })) ∧
    (s.keysPressed.right = true →
       (checkHorizontalCollision W sg (cg.position.x + 5 * delta) = true → t = sg) ∧
       (checkHorizontalCollision W sg (cg.position.x + 5 * delta) = false →
          t = { sg with character := some { cg with position :=
                  { cg.position with x := cg.position.x + 5 * delta } } })) := by
  have hf := applyGravity_fields W delta s sg hg
  have hkeys : sg.keysPressed = s.keysPressed := hf.1
  refine ⟨?_, fun g nextX u => rfl, ?_, ?_⟩
  · intro c hc
    rcases hf.2.2.2.2.2 with ⟨hnone, _⟩ | ⟨c0, c0', hs, hsg', hx, _, _⟩
    · rw [hnone] at hc; exact nomatch hc
    · rw [hs] at hc
      injection hc with hc
      rw [hsg'] at hcg
      injection hcg with hcg
      rw [hcg, hc] at hx
      exact hx
  all_goals (
    unfold animateStep at hstep
    rw [hg] at hstep
    intro hkey
    cases hl : s.keysPressed.left with
    | false =>
      cases hr : s.keysPressed.right with
      | false => rw [hl, hr] at hone; exact absurd rfl hone
      | true =>
        first
        | exact absurd hkey (by rw [hl]; exact Bool.false_ne_true)
        | (constructor <;> intro hcol <;>
            (simp only [Option.bind_eq_bind', Option.some_bind', Option.pure_def, hkeys,
               hl, hr, hcg, hcol, Bool.not_true, Bool.not_false, Bool.false_eq_true,
               if_false, if_true, eq_self_iff_true, Option.some.injEq] at hstep
             first
             | exact hstep.symm
             | (rw [← hkeys] at hstep
                exact hstep.symm)))
    | true =>
      cases hr : s.keysPressed.right with
      | true => rw [hl, hr] at hone; exact absurd rfl hone
      | false =>
        first
        | exact absurd hkey (by rw [hr]; exact Bool.false_ne_true)
        | (constructor <;> intro hcol <;>
            (simp only [Option.bind_eq_bind', Option.some_bind', Option.pure_def, hkeys,
               hl, hr, hcg, hcol, Bool.not_true, Bool.not_false, Bool.false_eq_true,
               if_false, if_true, eq_self_iff_true, Option.some.injEq] at hstep
             first
             | exact hstep.symm
             | (rw [← hkeys] at hstep
                exact hstep.symm))))

/-- The state after one gravity pass on `leftHeldState`: grounded, so
the landing branch runs and `switchAnimation` switches idle to run. -/
def sgLeft : GameState :=
  { leftHeldState with currentAction := some .run,
                       playingIdle := false,
                       playingRun := true }

/-- The state after one full `animate` tick on `leftHeldState`: run
current, X moved left by 5 * 1. -/
def tLeft : GameState :=
  { sgLeft with character := some { initialCharacter with position :=
      { initialCharacter.position with x := initialCharacter.position.x - 5 * 1 } } }

/-- Concrete gravity pass used by the witnesses. -/
theorem applyGravity_leftHeld :
    applyGravity emptyWorld 1 leftHeldState = some sgLeft := by
  norm_num [applyGravity, supportScan, supportStep, obstacleSupports, intersectsBox,
    translateBox, emptyWorld, leftHeldState, baseState, demoLocalBox, demoGroundBox,
    switchAnimation, setAction, actionRef, setPlaying, initialCharacter, sgLeft]
  decide

/-- Concrete full tick used by the witnesses. -/
theorem animateStep_leftHeld :
    animateStep emptyWorld 1 leftHeldState = some tLeft := by
  have hg := applyGravity_leftHeld
  unfold animateStep
  rw [hg]
  norm_num [checkHorizontalCollision, emptyWorld, sgLeft, leftHeldState, baseState,
    initialCharacter, tLeft, Option.bind_eq_bind', Option.some_bind']

/-- Witness for C7: on flat ground with no obstacles and the left key
held, one tick moves X by exactly -5 * delta. -/
theorem C7_horizontal_exact_witness :
    animateStep emptyWorld 1 leftHeldState =
      some { sgLeft with character := some { initialCharacter with position :=
        { initialCharacter.position with x := initialCharacter.position.x - 5 * 1 } } } := by
  have h := C7_horizontal_exact emptyWorld 1 leftHeldState sgLeft tLeft initialCharacter
    applyGravity_leftHeld rfl (by decide) animateStep_leftHeld
  have h2 := (h.2.2.1 rfl).2
    (by norm_num [checkHorizontalCollision, sgLeft, leftHeldState, baseState, emptyWorld,
          initialCharacter])
  rw [animateStep_leftHeld, h2]

/-- The Z coordinate seen through a loaded character. -/
theorem charZ_some (s : GameState) (c : Character) (hc : s.character = some c) :
    charZ s = c.position.z := by
  simp [charZ, hc]

/-- States with the same character have the same Z coordinate. -/
theorem charZ_eq_of_character (s t : GameState) (h : t.character = s.character) :
    charZ t = charZ s := by
  unfold charZ
  rw [h]

/-- `applyGravity` never writes the Z coordinate. -/
theorem applyGravity_charZ (W : World) (delta : ℚ) (s t : GameState)
    (hz : charZ s = 0) (h : applyGravity W delta s = some t) : charZ t = 0 := by
  rcases (applyGravity_fields W delta s t h).2.2.2.2.2 with ⟨_, rfl⟩ | ⟨c, c', hs, ht, _, hzz, _⟩
  · exact hz
  · rw [charZ_some t c' ht, hzz, ← charZ_some s c hs]
    exact hz

/-- `updateCharacterDirection` only writes the Y rotation. -/
theorem updateCharacterDirection_charZ (s : GameState) :
    charZ (updateCharacterDirection s) = charZ s := by
  cases hc : s.character with
  | none =>
    unfold updateCharacterDirection
    rw [hc]
  | some c =>
    unfold updateCharacterDirection
    rw [hc]
    by_cases hl : s.keysPressed.left = true
    · simp [hl, charZ, hc]
    · by_cases hr : s.keysPressed.right = true
      · simp [hl, hr, charZ, hc]
      · simp [hl, hr]

/-- `initiateJump` never writes the character transform. -/
theorem initiateJump_character (s t : GameState) (h : initiateJump s = some t) :
    t.character = s.character := by
  simp only [initiateJump] at h
  split at h
  · exact (setAction_fields _ _ _ h).1
  · simp only [Option.some.injEq] at h
    subst h
    rfl

/-- One animate tick never writes the Z coordinate. -/
theorem animateStep_charZ (W : World) (delta : ℚ) (s t : GameState)
    (hz : charZ s = 0) (h : animateStep W delta s = some t) : charZ t = 0 := by
  unfold animateStep at h
  cases hg : applyGravity W delta s with
  | none =>
    rw [hg] at h
    simp only [Option.bind_eq_bind', Option.none_bind'] at h
    exact nomatch h
  | some s1 =>
    rw [hg] at h
    have hz1 := applyGravity_charZ W delta s s1 hz hg
    simp only [Option.bind_eq_bind', Option.some_bind', Option.none_bind',
      Option.pure_def] at h
    cases hl : s1.keysPressed.left with
    | false =>
      simp only [hl, Bool.false_eq_true, if_false] at h
      cases hr : s1.keysPressed.right with
      | false =>
        simp only [hr, Bool.false_eq_true, if_false, Option.some.injEq] at h
        subst h
        exact hz1
      | true =>
        simp only [hr, if_true] at h
        cases hc1 : s1.character with
        | none =>
          rw [hc1] at h
          cases h
        | some c =>
          rw [hc1] at h
          have hz1c : c.position.z = 0 := by
            rw [charZ_some s1 c hc1] at hz1
            exact hz1
          by_cases hcolR : checkHorizontalCollision W s1 (c.position.x + 5 * delta) = true
          · simp only [hcolR, Bool.not_true, Bool.false_eq_true, if_false,
              Option.some.injEq] at h
            subst h
            exact hz1
          · simp only [Bool.not_eq_true] at hcolR
            simp only [hcolR, Bool.not_false, if_true, Option.some.injEq] at h
            subst h
            simp [charZ]
            exact hz1c
    | true =>
      simp only [hl, if_true] at h
      cases hc1 : s1.character with
      | none =>
        rw [hc1] at h
        cases h
      | some c =>
        rw [hc1] at h
        have hz1c : c.position.z = 0 := by
          rw [charZ_some s1 c hc1] at hz1
          exact hz1
        by_cases hcolL : checkHorizontalCollision W s1 (c.position.x - 5 * delta) = true
        · simp only [hcolL, Bool.not_true, Bool.false_eq_true, if_false] at h
          cases hr : s1.keysPressed.right with
          | false =>
            simp only [hr, Bool.false_eq_true, if_false, Option.some.injEq] at h
            subst h
            exact hz1
          | true =>
            simp only [hr, if_true, hc1] at h
            by_cases hcolR : checkHorizontalCollision W s1 (c.position.x + 5 * delta) = true
            · simp only [hcolR, Bool.not_true, Bool.false_eq_true, if_false,
                Option.some.injEq] at h
              subst h
              exact hz1
            · simp only [Bool.not_eq_true] at hcolR
              simp only [hcolR, Bool.not_false, if_true, Option.some.injEq] at h
              subst h
              simp [charZ]
              exact hz1c
        · simp only [Bool.not_eq_true] at hcolL
          simp only [hcolL, Bool.not_false, if_true] at h
          cases hr : s1.keysPressed.right with
          | false =>
            simp only [hr, Bool.false_eq_true, if_false, Option.some.injEq] at h
            subst h
            simp [charZ]
            exact hz1c
          | true =>
            simp only [hr, if_true] at h
            by_cases hcolR : checkHorizontalCollision W
                { s1 with character := some { c with position :=
                    { c.position with x := c.position.x - 5 * delta } } }
                (c.position.x - 5 * delta + 5 * delta) = true
            · simp only [hcolR, Bool.not_true, Bool.false_eq_true, if_false,
                Option.some.injEq] at h
              subst h
              simp [charZ]
              exact hz1c
            · simp only [Bool.not_eq_true] at hcolR
              simp only [hcolR, Bool.not_false, if_true, Option.some.injEq] at h
              subst h
              simp [charZ]
              exact hz1c

/-- `onKeyDown` never writes the Z coordinate. -/
theorem onKeyDown_charZ (k : JSKey) (s t : GameState)
    (hz : charZ s = 0) (h : onKeyDown k s = some t) : charZ t = 0 := by
  have hz' : ∀ u : GameState, u.character = s.character → charZ u = 0 :=
    fun u hu => (charZ_eq_of_character s u hu).trans hz
  cases k with
  | arrowUp =>
    cases hj : s.isJumping with
    | true =>
      simp [onKeyDown, setKey, hj] at h
      subst h
      exact hz' _ rfl
    | false =>
      simp [onKeyDown, setKey, hj, Option.bind_eq_bind'] at h
      exact hz' t ((initiateJump_character _ t h).trans rfl)
  | arrowLeft =>
    simp [onKeyDown, setKey, Option.bind_eq_bind', Option.bind_eq_some'] at h
    obtain ⟨s2, hsw, ht⟩ := h
    subst ht
    rw [updateCharacterDirection_charZ]
    exact hz' s2 ((switchAnimation_fields _ _ hsw).1.trans rfl)
  | arrowRight =>
    simp [onKeyDown, setKey, Option.bind_eq_bind', Option.bind_eq_some'] at h
    obtain ⟨s2, hsw, ht⟩ := h
    subst ht
    rw [updateCharacterDirection_charZ]
    exact hz' s2 ((switchAnimation_fields _ _ hsw).1.trans rfl)
  | otherKey =>
    simp [onKeyDown, setKey] at h
    subst h
    exact hz' _ rfl

/-- C9: the character Z coordinate is pinned at 0: it is 0 on the
character installed by the load callback, and a gravity pass, a full
animate tick, a key-down event, a jump initiation and a facing update
all preserve a zero Z coordinate. -/
theorem C9_z_invariant :
    initialCharacter.position.z = 0 ∧
    (∀ W delta s t, charZ s = 0 → applyGravity W delta s = some t → charZ t = 0) ∧
    (∀ W delta s t, charZ s = 0 → animateStep W delta s = some t → charZ t = 0) ∧
    (∀ k s t, charZ s = 0 → onKeyDown k s = some t → charZ t = 0) ∧
    (∀ s t, charZ s = 0 → initiateJump s = some t → charZ t = 0) ∧
    (∀ s, charZ s = 0 → charZ (updateCharacterDirection s) = 0) :=
  ⟨rfl, applyGravity_charZ, animateStep_charZ, onKeyDown_charZ,
   fun s t hz h => (charZ_eq_of_character s t (initiateJump_character s t h)).trans hz,
   fun s hz => (updateCharacterDirection_charZ s).trans hz⟩

/-- Witness for C9 at the concrete left-held tick. -/
theorem C9_z_invariant_witness :
    charZ sgLeft = 0 ∧ charZ tLeft = 0 ∧ charZ (updateCharacterDirection leftHeldState) = 0 :=
  ⟨C9_z_invariant.2.1 emptyWorld 1 leftHeldState sgLeft rfl applyGravity_leftHeld,
   C9_z_invariant.2.2.1 emptyWorld 1 leftHeldState tLeft rfl animateStep_leftHeld,
   C9_z_invariant.2.2.2.2.2 leftHeldState rfl⟩

end AcgWuXiao
